import Mathlib

/-!
Shallow embedding of the `amazon-eks-pod-identity-webhook` server lifecycle:
`pkg/handler/shutdown.go` (the shutdown coordinator `ShutdownOnTerm`) and
`main.go` (flag defaults, TLS certificate wiring, webhook-config publishing,
server startup ordering), together with theorems settling the specification
claims about them.

Conventions of the embedding:
* Go `error` values are `Option GoError` (`none` = the `nil` error).
* Go `time.Duration` values are naturals counting nanoseconds.
* Side effects (log lines, calls into the `http.Server`, file writes, the
  listener opening) are recorded as explicit events in traces, in the order
  the Go statements execute them.
-/

namespace PodIdentityWebhook

/-- Go durations, in nanoseconds (`time.Duration` is an `int64` nanosecond
count; all durations appearing in this program are small positive literals). -/
abbrev DurationNs := Nat

/-- `time.Second` in nanoseconds. -/
def timeSecond : DurationNs := 1000000000

/-- `time.Hour` in nanoseconds. -/
def timeHour : DurationNs := 3600 * timeSecond

/-- Go error values that the embedded code distinguishes.
`errServerClosed` is `http.ErrServerClosed`; every other non-nil error is
`other msg`. -/
inductive GoError where
  | errServerClosed
  | other (msg : String)
deriving DecidableEq, Repr

/-- A Go `error` result: `none` is the `nil` error. -/
abbrev GoResult := Option GoError

/-- The OS signals relevant to the coordinator. `interrupt` is
`os.Interrupt` (SIGINT) and `term` is `syscall.SIGTERM` (the package-level
`var term = syscall.SIGTERM`). -/
inductive OSSignal where
  | interrupt
  | term
  | otherSignal (n : Nat)
deriving DecidableEq, Repr

/-- The externally observable behaviour of the `*http.Server` handed to the
coordinator: what `server.Shutdown(ctx)` returns and what `server.Close()`
returns. `none` models a `nil` error. -/
structure ServerBehavior where
  shutdownResult : GoResult
  closeResult : GoResult
deriving DecidableEq, Repr

/-- Events the shutdown goroutine of `ShutdownOnTerm` can perform, in Go
statement order. `waitCtxDone` is the `<-ctx.Done()` receive, which unblocks
exactly when the deadline of `context.WithTimeout(context.Background(),
timeout)` expires (`cancel` is only deferred, so nothing fires it early). -/
inductive ShutdownEvent where
  | logInfo (msg : String)
  | callShutdown (deadline : DurationNs)
  | waitCtxDone
  | logError (msg : String)
  | callClose
  | logFatal (msg : String)
deriving DecidableEq, Repr

/-- The body of the goroutine spawned by `ShutdownOnTerm` once a signal is
received, as the trace of its events.  Mirrors `shutdown.go` lines 39-49:

```
klog.Infof("Received SIGTERM/SIGINT. Beginning shutdown")
ctx, cancel := context.WithTimeout(context.Background(), timeout)
defer cancel()
if err := server.Shutdown(ctx); err != http.ErrServerClosed {
    <-ctx.Done()
    klog.Errorf("Error shutting server down: %v", err)
    if err := server.Close(); err != nil {
        klog.Fatalf("Error closing server: %v", err)
    }
}
```

Note the guard compares the shutdown result against `http.ErrServerClosed`
only: a `nil` result also enters the branch. -/
def shutdownGoroutine (timeout : DurationNs) (srv : ServerBehavior) :
    List ShutdownEvent :=
  ShutdownEvent.logInfo "Received SIGTERM/SIGINT. Beginning shutdown" ::
  ShutdownEvent.callShutdown timeout ::
  (if srv.shutdownResult = some GoError.errServerClosed then
    []
  else
    ShutdownEvent.waitCtxDone ::
    ShutdownEvent.logError "Error shutting server down" ::
    ShutdownEvent.callClose ::
    match srv.closeResult with
    | none => []
    | some _ => [ShutdownEvent.logFatal "Error closing server"])

/-- The signal-subscription state built by `ShutdownOnTerm` before spawning
the goroutine: `signal.Notify(c, os.Interrupt); signal.Notify(c, term)`
registers exactly the interrupt and terminate signals on the channel the
goroutine receives from. -/
structure Coordinator where
  notified : List OSSignal
  timeout : DurationNs
deriving DecidableEq, Repr

/-- `ShutdownOnTerm(server, timeout)`: registers interrupt and terminate on
the signal channel and records the drain deadline the goroutine will use. -/
def ShutdownOnTerm (timeout : DurationNs) : Coordinator :=
  { notified := [OSSignal.interrupt, OSSignal.term], timeout := timeout }

/-- Delivery of one OS signal to the process after `ShutdownOnTerm` ran: a
signal in the notified set wakes the goroutine's `<-c` receive and the body
runs once; any other signal leaves the coordinator untouched. -/
def deliverSignal (c : Coordinator) (s : OSSignal) (srv : ServerBehavior) :
    List ShutdownEvent :=
  if s ∈ c.notified then shutdownGoroutine c.timeout srv else []

/-- The deadlines of all `server.Shutdown` invocations in a trace. -/
def shutdownCalls (tr : List ShutdownEvent) : List DurationNs :=
  tr.filterMap fun e =>
    match e with
    | ShutdownEvent.callShutdown d => some d
    | _ => none

/-- How many times `server.Close` is invoked in a trace. -/
def closeCalls (tr : List ShutdownEvent) : Nat :=
  tr.countP fun e =>
    match e with
    | ShutdownEvent.callClose => true
    | _ => false

/-- Whether a trace contains a `klog.Fatalf` (which exits the process with a
non-zero status). -/
def hasFatal (tr : List ShutdownEvent) : Bool :=
  tr.any fun e =>
    match e with
    | ShutdownEvent.logFatal _ => true
    | _ => false

/-- Whether a trace contains a `klog.Errorf` line. -/
def hasErrorLog (tr : List ShutdownEvent) : Bool :=
  tr.any fun e =>
    match e with
    | ShutdownEvent.logError _ => true
    | _ => false

/-- Index of the first list element satisfying `p`, if any. -/
def firstIdx {α : Type} (p : α → Bool) : List α → Option Nat
  | [] => none
  | e :: tr => if p e then some 0 else (firstIdx p tr).map (· + 1)

/-- How the process terminates once the shutdown goroutine has run and the
main goroutine's `server.ListenAndServeTLS` has returned `listenErr`.
`klog.Fatalf` anywhere exits abnormally; otherwise `main` exits abnormally
unless `ListenAndServeTLS` returned `http.ErrServerClosed`, in which case it
logs and returns normally (exit 0). -/
inductive ProcessExit where
  | normal
  | abnormal
deriving DecidableEq, Repr

/-- Process exit after a termination signal, combining the shutdown
goroutine's trace with `main.go`'s final
`if err := server.ListenAndServeTLS("", ""); err != http.ErrServerClosed
\x7b klog.Fatalf(...) \x7d`. -/
def processExitAfterSignal (timeout : DurationNs) (srv : ServerBehavior)
    (listenErr : GoError) : ProcessExit :=
  if hasFatal (shutdownGoroutine timeout srv) then
    ProcessExit.abnormal
  else if listenErr = GoError.errServerClosed then
    ProcessExit.normal
  else
    ProcessExit.abnormal

/-- An argument to `fmt.Sprintf`: the program formats strings (`%s`) and
integers (`%d`) only. -/
inductive FmtArg where
  | s (v : String)
  | d (v : Int)
deriving DecidableEq, Repr

/-- Core of the `fmt.Sprintf` model: scans the format characters, replacing
a `%s` directive with the next string argument and a `%d` directive with the
decimal rendering of the next integer argument; every other character is
copied verbatim. This covers exactly the directives `main.go` uses. -/
def goSprintfAux : List Char → List FmtArg → List Char
  | [], _ => []
  | '%' :: 's' :: rest, FmtArg.s v :: args => v.data ++ goSprintfAux rest args
  | '%' :: 'd' :: rest, FmtArg.d v :: args =>
      (toString v).data ++ goSprintfAux rest args
  | c :: rest, args => c :: goSprintfAux rest args

/-- `fmt.Sprintf` restricted to the `%s`/`%d` directives used by `main.go`. -/
def goSprintf (fmt : String) (args : List FmtArg) : String :=
  ⟨goSprintfAux fmt.data args⟩

/-- The CLI flag values `main` reads after `flag.Parse()`.  One field per
registered flag, named after the Go variable holding it.  The Go `namespace`
flag variable is `namespaceName`. -/
structure Flags where
  port : Int
  kubeconfig : String
  apiURL : String
  webhookConfig : String
  certDirectory : String
  selfSignedLife : DurationNs
  inCluster : Bool
  tlsSecret : String
  serviceName : String
  namespaceName : String
  annotationPrefix : String
  audience : String
  mountPath : String
  tokenExpiration : Int
deriving DecidableEq, Repr

/-- The default values given at each `flag.X(name, default, usage)`
registration in `main.go` lines 39-61. -/
def defaultFlags : Flags :=
  { port := 443
    kubeconfig := ""
    apiURL := ""
    webhookConfig := "/etc/webhook/config.yaml"
    certDirectory := "/etc/webhook/certs"
    selfSignedLife := timeHour * 24 * 365
    inCluster := true
    tlsSecret := "iam-for-pods"
    serviceName := "iam-for-pods"
    namespaceName := "eks"
    annotationPrefix := "eks.amazonaws.com"
    audience := "sts.amazonaws.com"
    mountPath := "/var/run/secrets/eks.amazonaws.com/serviceaccount"
    tokenExpiration := 86400 }

/-- One command-line flag assignment, already parsed to the flag's value
type; one constructor per flag `main.go` registers. -/
inductive FlagAssign where
  | setPort (v : Int)
  | setKubeconfig (v : String)
  | setApiURL (v : String)
  | setWebhookConfig (v : String)
  | setCertDirectory (v : String)
  | setSelfSignedLife (v : DurationNs)
  | setInCluster (v : Bool)
  | setTlsSecret (v : String)
  | setServiceName (v : String)
  | setNamespaceName (v : String)
  | setAnnotationPrefix (v : String)
  | setAudience (v : String)
  | setMountPath (v : String)
  | setTokenExpiration (v : Int)
deriving DecidableEq, Repr

/-- Applying one flag assignment to the flag state. -/
def applyFlag (f : Flags) : FlagAssign → Flags
  | FlagAssign.setPort v => { f with port := v }
  | FlagAssign.setKubeconfig v => { f with kubeconfig := v }
  | FlagAssign.setApiURL v => { f with apiURL := v }
  | FlagAssign.setWebhookConfig v => { f with webhookConfig := v }
  | FlagAssign.setCertDirectory v => { f with certDirectory := v }
  | FlagAssign.setSelfSignedLife v => { f with selfSignedLife := v }
  | FlagAssign.setInCluster v => { f with inCluster := v }
  | FlagAssign.setTlsSecret v => { f with tlsSecret := v }
  | FlagAssign.setServiceName v => { f with serviceName := v }
  | FlagAssign.setNamespaceName v => { f with namespaceName := v }
  | FlagAssign.setAnnotationPrefix v => { f with annotationPrefix := v }
  | FlagAssign.setAudience v => { f with audience := v }
  | FlagAssign.setMountPath v => { f with mountPath := v }
  | FlagAssign.setTokenExpiration v => { f with tokenExpiration := v }

/-- `flag.Parse()`: each flag variable starts at its registered default and
is overwritten by the command-line assignments in order. -/
def parseFlags (args : List FlagAssign) : Flags :=
  args.foldl applyFlag defaultFlags

/-- The certificate-signing-request template built in `main.go`: only the
subject common name is populated (the SAN block is commented out in the
source). -/
structure CertificateRequest where
  commonName : String
deriving DecidableEq, Repr

/-- The CSR template `main` passes to `cert.NewServerCertificateManager` in
InCluster mode:
`Subject: pkix.Name{CommonName: fmt.Sprintf("%s.%s.svc", *serviceName, *namespaceName)}`. -/
def mainCSR (f : Flags) : CertificateRequest :=
  { commonName :=
      goSprintf "%s.%s.svc" [FmtArg.s f.serviceName, FmtArg.s f.namespaceName] }

/-- A TLS serving certificate, opaque to this core. -/
structure TLSCertificate where
  id : Nat
deriving DecidableEq, Repr

/-- The per-handshake certificate hook installed in InCluster mode
(`tlsConfig.GetCertificate`): reads `certManager.Current()` (here the
`current` argument) and fails the handshake with an explicit error when no
certificate is available. It is a total function: it returns a value in all
cases, never panics. -/
def inClusterGetCertificate (current : Option TLSCertificate) :
    Except String TLSCertificate :=
  match current with
  | none =>
      Except.error
        "no serving certificate available for the webhook, is the CSR approved?"
  | some c => Except.ok c

/-- The certificate hook `main` installs into `tlsConfig.GetCertificate`:
in InCluster mode the hook above, reading `certManager.Current()` (the
`current` argument); in OutOfCluster mode the self-signed generator's hook
(`generator.GetCertificateFn()`, external to the two source files, modelled
as returning the generator's certificate `selfSigned`). -/
def mainGetCertificate (f : Flags) (selfSigned : TLSCertificate)
    (current : Option TLSCertificate) : Except String TLSCertificate :=
  if f.inCluster then inClusterGetCertificate current else Except.ok selfSigned

/-- Steps `main` performs, in program order, with the data each carries. -/
inductive MainStep where
  | buildConfig
  | newClientset
  | newCertManager (csr : CertificateRequest)
  | startCertManager
  | installInClusterCertHook
  | newSelfSignedGenerator (certDir : String) (life : DurationNs)
  | installSelfSignedCertHook
  | parseURL (u : String)
  | generateConfig
  | writeWebhookConfig (path : String) (bytes : List Nat)
  | createServer (addr : String)
  | registerShutdown (timeout : DurationNs)
  | listen (addr : String)
  | fatalExit (msg : String)
deriving DecidableEq, Repr

/-- Result of `WebhookConfigManager.GenerateConfig()`: descriptor bytes or
an error. -/
inductive GenerateResult where
  | ok (bytes : List Nat)
  | err (msg : String)
deriving DecidableEq, Repr

/-- Results of the fallible external calls `main` makes, fixing one
execution of the program. `generateConfigResult` carries the descriptor
bytes on success; `listenResult` is the (always non-nil) error
`server.ListenAndServeTLS` returns. -/
structure MainEnv where
  buildConfigResult : GoResult
  clientsetResult : GoResult
  certManagerResult : GoResult
  urlParseResult : GoResult
  generateConfigResult : GenerateResult
  writeFileResult : GoResult
  listenResult : GoError
deriving DecidableEq, Repr

/-- An environment in which every external call succeeds and the listener
terminates through the graceful path. -/
def allOkEnv : MainEnv :=
  { buildConfigResult := none
    clientsetResult := none
    certManagerResult := none
    urlParseResult := none
    generateConfigResult := GenerateResult.ok [1]
    writeFileResult := none
    listenResult := GoError.errServerClosed }

/-- The TLS-configuration phase of `main` (`if *inCluster { ... } else
{ ... }`), as its steps plus whether it completed without a fatal exit.
InCluster: construct the certificate manager with `mainCSR` (fatal on
error), start it, install the in-cluster certificate hook.  OutOfCluster:
construct the self-signed generator, install its hook, parse the local URL
(fatal on error), generate the webhook descriptor (fatal on error), write it
to `*webhookConfig` (fatal on error). -/
def tlsSetupSteps (f : Flags) (env : MainEnv) : List MainStep × Bool :=
  if f.inCluster then
    if env.certManagerResult.isSome then
      ([MainStep.newCertManager (mainCSR f),
        MainStep.fatalExit "failed to initialize certificate manager"], false)
    else
      ([MainStep.newCertManager (mainCSR f),
        MainStep.startCertManager,
        MainStep.installInClusterCertHook], true)
  else
    let pre :=
      [MainStep.newSelfSignedGenerator f.certDirectory f.selfSignedLife,
       MainStep.installSelfSignedCertHook,
       MainStep.parseURL (goSprintf "https://localhost:%d" [FmtArg.d f.port])]
    if env.urlParseResult.isSome then
      (pre ++ [MainStep.fatalExit "Error setting up server"], false)
    else
      match env.generateConfigResult with
      | GenerateResult.err _ =>
          (pre ++ [MainStep.generateConfig,
                   MainStep.fatalExit "Error creating webhook config"], false)
      | GenerateResult.ok bs =>
          if env.writeFileResult.isSome then
            (pre ++ [MainStep.generateConfig,
                     MainStep.writeWebhookConfig f.webhookConfig bs,
                     MainStep.fatalExit "Error writing webhook config"], false)
          else
            (pre ++ [MainStep.generateConfig,
                     MainStep.writeWebhookConfig f.webhookConfig bs], true)

/-- The tail of `main` after TLS setup succeeded: create the server on
`fmt.Sprintf(":%d", *port)`, call
`handler.ShutdownOnTerm(server, time.Duration(10)*time.Second)`, then block
in `server.ListenAndServeTLS` (fatal unless it returns
`http.ErrServerClosed`). -/
def serverSteps (f : Flags) (env : MainEnv) : List MainStep :=
  MainStep.createServer (goSprintf ":%d" [FmtArg.d f.port]) ::
  MainStep.registerShutdown (10 * timeSecond) ::
  MainStep.listen (goSprintf ":%d" [FmtArg.d f.port]) ::
  (if env.listenResult = GoError.errServerClosed then
    []
  else
    [MainStep.fatalExit "Error listening"])

/-- `main` as a step trace: build the client config (fatal on error), build
the clientset (fatal on error), run the TLS-configuration phase, and, when
it succeeded, create/register/listen. -/
def mainSteps (f : Flags) (env : MainEnv) : List MainStep :=
  MainStep.buildConfig ::
  (if env.buildConfigResult.isSome then
    [MainStep.fatalExit "Error creating config"]
  else
    MainStep.newClientset ::
    (if env.clientsetResult.isSome then
      [MainStep.fatalExit "Error creating clientset"]
    else
      (tlsSetupSteps f env).1 ++
      (if (tlsSetupSteps f env).2 then serverSteps f env else [])))

/-- Whether a main step is the fatal process exit. -/
def isFatalStep : MainStep → Bool
  | MainStep.fatalExit _ => true
  | _ => false

/-- Whether a main step opens the listening socket. -/
def isListenStep : MainStep → Bool
  | MainStep.listen _ => true
  | _ => false

/-- Whether a main step writes the webhook registration descriptor. -/
def isWriteWebhookStep : MainStep → Bool
  | MainStep.writeWebhookConfig _ _ => true
  | _ => false

/-- Whether a main step registers the shutdown coordinator. -/
def isRegisterShutdownStep : MainStep → Bool
  | MainStep.registerShutdown _ => true
  | _ => false

/-- Whether a shutdown event is the `<-ctx.Done()` wait. -/
def isWaitCtxDoneEvent : ShutdownEvent → Bool
  | ShutdownEvent.waitCtxDone => true
  | _ => false

/-- Whether a shutdown event is the `server.Close()` invocation. -/
def isCallCloseEvent : ShutdownEvent → Bool
  | ShutdownEvent.callClose => true
  | _ => false

/-- Whether a `GenerateConfig` result is an error. -/
def GenerateResult.isErr : GenerateResult → Bool
  | GenerateResult.ok _ => false
  | GenerateResult.err _ => true

/-! ### Helper lemmas about the shutdown goroutine trace -/

theorem shutdownGoroutine_skip (t : DurationNs) (srv : ServerBehavior)
    (h : srv.shutdownResult = some GoError.errServerClosed) :
    shutdownGoroutine t srv =
      [ShutdownEvent.logInfo "Received SIGTERM/SIGINT. Beginning shutdown",
       ShutdownEvent.callShutdown t] := by
  simp [shutdownGoroutine, h]

theorem shutdownGoroutine_taken (t : DurationNs) (srv : ServerBehavior)
    (h : srv.shutdownResult ≠ some GoError.errServerClosed) :
    shutdownGoroutine t srv =
      [ShutdownEvent.logInfo "Received SIGTERM/SIGINT. Beginning shutdown",
       ShutdownEvent.callShutdown t,
       ShutdownEvent.waitCtxDone,
       ShutdownEvent.logError "Error shutting server down",
       ShutdownEvent.callClose] ++
      (match srv.closeResult with
       | none => []
       | some _ => [ShutdownEvent.logFatal "Error closing server"]) := by
  simp [shutdownGoroutine, h]

theorem closeCalls_taken (t : DurationNs) (srv : ServerBehavior)
    (h : srv.shutdownResult ≠ some GoError.errServerClosed) :
    closeCalls (shutdownGoroutine t srv) = 1 := by
  rw [shutdownGoroutine_taken t srv h]
  cases srv.closeResult <;> simp [closeCalls]

theorem waitIdx_taken (t : DurationNs) (srv : ServerBehavior)
    (h : srv.shutdownResult ≠ some GoError.errServerClosed) :
    firstIdx isWaitCtxDoneEvent (shutdownGoroutine t srv) = some 2 := by
  rw [shutdownGoroutine_taken t srv h]
  simp [firstIdx, isWaitCtxDoneEvent]

theorem closeIdx_taken (t : DurationNs) (srv : ServerBehavior)
    (h : srv.shutdownResult ≠ some GoError.errServerClosed) :
    firstIdx isCallCloseEvent (shutdownGoroutine t srv) = some 4 := by
  rw [shutdownGoroutine_taken t srv h]
  simp [firstIdx, isCallCloseEvent]

theorem hasFatal_iff (t : DurationNs) (srv : ServerBehavior)
    (h : srv.shutdownResult ≠ some GoError.errServerClosed) :
    hasFatal (shutdownGoroutine t srv) = srv.closeResult.isSome := by
  rw [shutdownGoroutine_taken t srv h]
  cases srv.closeResult <;> simp [hasFatal]

/-! ### Claim theorems about the shutdown coordinator -/

/-- C2 (confirmed): if `server.Shutdown` returns the `http.ErrServerClosed`
sentinel, the coordinator treats it as success: the guard
`err != http.ErrServerClosed` is false, so `server.Close` is never invoked,
no error is logged, and no fatal exit occurs. -/
theorem errServerClosed_treated_as_success (t : DurationNs) (cl : GoResult) :
    closeCalls (shutdownGoroutine t
      { shutdownResult := some GoError.errServerClosed, closeResult := cl }) = 0 ∧
    hasErrorLog (shutdownGoroutine t
      { shutdownResult := some GoError.errServerClosed, closeResult := cl }) = false ∧
    hasFatal (shutdownGoroutine t
      { shutdownResult := some GoError.errServerClosed, closeResult := cl }) = false := by
  refine ⟨?_, ?_, ?_⟩ <;>
    simp [shutdownGoroutine, closeCalls, hasErrorLog, hasFatal]

/-- C4 (confirmed): if `server.Shutdown` returns anything other than the
`http.ErrServerClosed` sentinel, `server.Close` is invoked exactly once, and
only after the coordinator has blocked on `<-ctx.Done()`, i.e. after the full
drain deadline has elapsed: the `waitCtxDone` event strictly precedes the
`callClose` event in the trace. -/
theorem forced_close_once_after_deadline (t : DurationNs) (srv : ServerBehavior)
    (h : srv.shutdownResult ≠ some GoError.errServerClosed) :
    closeCalls (shutdownGoroutine t srv) = 1 ∧
    ∃ i j, i < j ∧
      firstIdx isWaitCtxDoneEvent (shutdownGoroutine t srv) = some i ∧
      firstIdx isCallCloseEvent (shutdownGoroutine t srv) = some j := by
  exact ⟨closeCalls_taken t srv h,
    2, 4, by omega, waitIdx_taken t srv h, closeIdx_taken t srv h⟩

/-- Witness for C4 at `server.Shutdown` returning a deadline-exceeded error. -/
theorem forced_close_once_after_deadline_witness :
    closeCalls (shutdownGoroutine (10 * timeSecond)
      { shutdownResult := some (GoError.other "context deadline exceeded"),
        closeResult := none }) = 1 ∧
    ∃ i j, i < j ∧
      firstIdx isWaitCtxDoneEvent (shutdownGoroutine (10 * timeSecond)
        { shutdownResult := some (GoError.other "context deadline exceeded"),
          closeResult := none }) = some i ∧
      firstIdx isCallCloseEvent (shutdownGoroutine (10 * timeSecond)
        { shutdownResult := some (GoError.other "context deadline exceeded"),
          closeResult := none }) = some j :=
  forced_close_once_after_deadline (10 * timeSecond) _ (by decide)

/-- C5 (confirmed): in any run where the forced close is reached (the
shutdown result was not the sentinel), an error from `server.Close` triggers
`klog.Fatalf` and the process exits abnormally; a `nil` result from
`server.Close` leaves no fatal log, and `main` — whose
`ListenAndServeTLS` returns `http.ErrServerClosed` once the server has been
shut down or closed — exits normally. -/
theorem close_error_fatal_else_normal (t : DurationNs) (srv : ServerBehavior)
    (h : srv.shutdownResult ≠ some GoError.errServerClosed) :
    (srv.closeResult ≠ none →
      processExitAfterSignal t srv GoError.errServerClosed = ProcessExit.abnormal) ∧
    (srv.closeResult = none →
      processExitAfterSignal t srv GoError.errServerClosed = ProcessExit.normal) := by
  constructor
  · intro hc
    have hf := hasFatal_iff t srv h
    unfold processExitAfterSignal
    rcases hcl : srv.closeResult with _ | e
    · exact absurd hcl hc
    · rw [hf, hcl]
      simp
  · intro hc
    have hf := hasFatal_iff t srv h
    unfold processExitAfterSignal
    rw [hf, hc]
    simp

/-- Witness for C5: a failing close exits abnormally, a clean close exits
normally. -/
theorem close_error_fatal_else_normal_witness :
    processExitAfterSignal (10 * timeSecond)
      { shutdownResult := some (GoError.other "context deadline exceeded"),
        closeResult := some (GoError.other "close failed") }
      GoError.errServerClosed = ProcessExit.abnormal ∧
    processExitAfterSignal (10 * timeSecond)
      { shutdownResult := some (GoError.other "context deadline exceeded"),
        closeResult := none }
      GoError.errServerClosed = ProcessExit.normal :=
  ⟨(close_error_fatal_else_normal (10 * timeSecond) _ (by decide)).1 (by decide),
   (close_error_fatal_else_normal (10 * timeSecond) _ (by decide)).2 rfl⟩

/-- C1 counterexample: when `server.Shutdown` returns `nil` (the graceful
drain completed within the deadline) the guard `err != http.ErrServerClosed`
is still true, so the coordinator does invoke `server.Close` — the claim
"forced close is never invoked and the process exits 0" is false at this
input because its first conjunct fails. -/
theorem graceful_nil_no_close_counterexample :
    ¬ (closeCalls (shutdownGoroutine (10 * timeSecond)
          { shutdownResult := none, closeResult := none }) = 0 ∧
       processExitAfterSignal (10 * timeSecond)
          { shutdownResult := none, closeResult := none }
          GoError.errServerClosed = ProcessExit.normal) := by
  decide

/-- C1 amended (proved): if `server.Shutdown` returns `nil`, the coordinator
still enters the error branch: it blocks until the drain deadline expires,
logs an error, and invokes `server.Close` exactly once; when that forced
close returns `nil` the process nevertheless terminates normally (exit 0).
Forced close is skipped only when the shutdown result is the
`http.ErrServerClosed` sentinel. -/
theorem graceful_nil_still_forces_close (t : DurationNs) (srv : ServerBehavior)
    (h : srv.shutdownResult = none) :
    closeCalls (shutdownGoroutine t srv) = 1 ∧
    firstIdx isWaitCtxDoneEvent (shutdownGoroutine t srv) = some 2 ∧
    firstIdx isCallCloseEvent (shutdownGoroutine t srv) = some 4 ∧
    hasErrorLog (shutdownGoroutine t srv) = true ∧
    (srv.closeResult = none →
      processExitAfterSignal t srv GoError.errServerClosed = ProcessExit.normal) := by
  have hne : srv.shutdownResult ≠ some GoError.errServerClosed := by
    rw [h]; intro hc; exact Option.noConfusion hc
  refine ⟨closeCalls_taken t srv hne, waitIdx_taken t srv hne,
    closeIdx_taken t srv hne, ?_, ?_⟩
  · rw [shutdownGoroutine_taken t srv hne]
    cases srv.closeResult <;> simp [hasErrorLog]
  · intro hc
    unfold processExitAfterSignal
    rw [hasFatal_iff t srv hne, hc]
    simp

/-- Witness for the amended C1, at a server whose graceful shutdown and
forced close both return `nil`. -/
theorem graceful_nil_still_forces_close_witness :
    closeCalls (shutdownGoroutine (10 * timeSecond)
      { shutdownResult := none, closeResult := none }) = 1 ∧
    firstIdx isWaitCtxDoneEvent (shutdownGoroutine (10 * timeSecond)
      { shutdownResult := none, closeResult := none }) = some 2 ∧
    firstIdx isCallCloseEvent (shutdownGoroutine (10 * timeSecond)
      { shutdownResult := none, closeResult := none }) = some 4 ∧
    hasErrorLog (shutdownGoroutine (10 * timeSecond)
      { shutdownResult := none, closeResult := none }) = true ∧
    ((none : GoResult) = none →
      processExitAfterSignal (10 * timeSecond)
        { shutdownResult := none, closeResult := none }
        GoError.errServerClosed = ProcessExit.normal) :=
  graceful_nil_still_forces_close (10 * timeSecond) _ rfl

/-! ### Claim theorems about `main` -/

/-- Rendering of `fmt.Sprintf("%s.%s.svc", a, b)`. -/
theorem goSprintf_two_s (a b : String) :
    goSprintf "%s.%s.svc" [FmtArg.s a, FmtArg.s b] = a ++ "." ++ b ++ ".svc" := by
  cases a with
  | mk la =>
    cases b with
    | mk lb =>
      show String.mk (goSprintfAux ("%s.%s.svc".data) [FmtArg.s ⟨la⟩, FmtArg.s ⟨lb⟩]) = _
      have hfmt : "%s.%s.svc".data = ['%','s','.','%','s','.','s','v','c'] := rfl
      rw [hfmt]
      simp [goSprintfAux, String.ext_iff, String.append]

/-- C3 (confirmed): a termination signal (interrupt or terminate) delivered
after `ShutdownOnTerm` registered invokes `server.Shutdown` exactly once,
with deadline equal to the registered timeout; in `main` every registered
timeout is the drain deadline `time.Duration(10)*time.Second`; and the
`ShutdownOnTerm` registration step strictly precedes the
`ListenAndServeTLS` step, so the coordinator is in place before the server
begins accepting connections. -/
theorem coordinator_registered_before_listen (f : Flags) (env : MainEnv)
    (s : OSSignal) (t : DurationNs) (srv : ServerBehavior)
    (hs : s = OSSignal.interrupt ∨ s = OSSignal.term) :
    shutdownCalls (deliverSignal (ShutdownOnTerm t) s srv) = [t] ∧
    (∀ t', MainStep.registerShutdown t' ∈ mainSteps f env → t' = 10 * timeSecond) ∧
    (∀ i j, firstIdx isRegisterShutdownStep (mainSteps f env) = some i →
      firstIdx isListenStep (mainSteps f env) = some j → i < j) := by
  refine ⟨?_, ?_, ?_⟩
  · have hmem : s ∈ (ShutdownOnTerm t).notified := by
      rcases hs with h | h <;> simp [h, ShutdownOnTerm]
    rw [deliverSignal, if_pos hmem]
    show shutdownCalls (shutdownGoroutine t srv) = [t]
    by_cases hsr : srv.shutdownResult = some GoError.errServerClosed
    · rw [shutdownGoroutine_skip t srv hsr]; simp [shutdownCalls]
    · rw [shutdownGoroutine_taken t srv hsr]
      cases srv.closeResult <;> simp [shutdownCalls]
  · intro t' h
    rcases env with ⟨bc, cs, cm, up, gc, wf, le⟩
    cases hic : f.inCluster <;> cases bc <;> cases cs <;> cases cm <;> cases up <;>
      cases gc <;> cases wf <;> cases le <;>
      simp_all [mainSteps, tlsSetupSteps, serverSteps]
  · intro i j hi hj
    rcases env with ⟨bc, cs, cm, up, gc, wf, le⟩
    cases hic : f.inCluster <;> cases bc <;> cases cs <;> cases cm <;> cases up <;>
      cases gc <;> cases wf <;> cases le <;>
      simp_all [mainSteps, tlsSetupSteps, serverSteps, firstIdx,
        isRegisterShutdownStep, isListenStep] <;> omega

/-- Witness for C3: a terminate signal at the default configuration yields
exactly one `server.Shutdown` call with the 10-second deadline, and in the
all-successful default run registration sits at index 6, the listen step at
index 7. -/
theorem coordinator_registered_before_listen_witness :
    shutdownCalls (deliverSignal (ShutdownOnTerm (10 * timeSecond)) OSSignal.term
      { shutdownResult := none, closeResult := none }) = [10 * timeSecond] ∧
    (6 : Nat) < 7 :=
  ⟨(coordinator_registered_before_listen defaultFlags allOkEnv OSSignal.term
      (10 * timeSecond) { shutdownResult := none, closeResult := none }
      (Or.inr rfl)).1,
   (coordinator_registered_before_listen defaultFlags allOkEnv OSSignal.term
      (10 * timeSecond) { shutdownResult := none, closeResult := none }
      (Or.inr rfl)).2.2 6 7 (by decide) (by decide)⟩

/-- C6 (confirmed): in InCluster mode, whenever the certificate manager's
`Current()` accessor returns `nil`, the installed per-handshake hook returns
the explicit "no serving certificate available" error and never a
certificate; it is a total function, so the failure is confined to that
handshake — no panic, no process crash. -/
theorem absent_cert_fails_handshake (f : Flags) (g : TLSCertificate)
    (cur : Option TLSCertificate) (hf : f.inCluster = true) (hc : cur = none) :
    mainGetCertificate f g cur = Except.error
      "no serving certificate available for the webhook, is the CSR approved?" ∧
    (∀ c, mainGetCertificate f g cur ≠ Except.ok c) := by
  subst hc
  refine ⟨by simp [mainGetCertificate, hf, inClusterGetCertificate], ?_⟩
  intro c
  simp [mainGetCertificate, hf, inClusterGetCertificate]

/-- Witness for C6 at the default (in-cluster) flags with no current
certificate. -/
theorem absent_cert_fails_handshake_witness :
    mainGetCertificate defaultFlags { id := 0 } none = Except.error
      "no serving certificate available for the webhook, is the CSR approved?" ∧
    (∀ c, mainGetCertificate defaultFlags { id := 0 } none ≠ Except.ok c) :=
  absent_cert_fails_handshake defaultFlags { id := 0 } none rfl rfl

/-- C7 (confirmed): in OutOfCluster mode, whenever the listener opens the
webhook registration descriptor was written strictly earlier in the run, and
if generating or writing the descriptor fails the run contains a fatal exit
and the listener never opens. -/
theorem webhook_written_before_listen (f : Flags) (env : MainEnv)
    (hf : f.inCluster = false) :
    (∀ j, firstIdx isListenStep (mainSteps f env) = some j →
      ∃ i, firstIdx isWriteWebhookStep (mainSteps f env) = some i ∧ i < j) ∧
    ((env.generateConfigResult.isErr = true ∨ env.writeFileResult.isSome = true) →
      (mainSteps f env).any isFatalStep = true ∧
      firstIdx isListenStep (mainSteps f env) = none) := by
  rcases env with ⟨bc, cs, cm, up, gc, wf, le⟩
  cases bc <;> cases cs <;> cases up <;> cases gc <;> cases wf <;> cases le <;>
    simp_all [mainSteps, tlsSetupSteps, serverSteps, firstIdx,
      isListenStep, isWriteWebhookStep, isFatalStep, GenerateResult.isErr]

/-- Witness for C7: in the all-successful out-of-cluster run the descriptor
write sits at index 6, before the listen step at index 9. -/
theorem webhook_written_before_listen_witness :
    ∃ i, firstIdx isWriteWebhookStep
        (mainSteps { defaultFlags with inCluster := false } allOkEnv) = some i ∧
      i < 9 :=
  (webhook_written_before_listen { defaultFlags with inCluster := false }
    allOkEnv rfl).1 9 (by decide)

/-- C8 (confirmed): in InCluster mode the CSR template handed to
`cert.NewServerCertificateManager` has common name
`fmt.Sprintf("%s.%s.svc", *serviceName, *namespaceName)`, i.e. the fronting
service's cluster-local DNS name `<service-name>.<namespace>.svc`. -/
theorem csr_common_name (f : Flags) (env : MainEnv) (csr : CertificateRequest)
    (hf : f.inCluster = true)
    (hmem : MainStep.newCertManager csr ∈ mainSteps f env) :
    csr.commonName = f.serviceName ++ "." ++ f.namespaceName ++ ".svc" := by
  have hcsr : csr = mainCSR f := by
    rcases env with ⟨bc, cs, cm, up, gc, wf, le⟩
    cases bc <;> cases cs <;> cases cm <;> cases le <;>
      simp_all [mainSteps, tlsSetupSteps, serverSteps]
  rw [hcsr]
  exact goSprintf_two_s f.serviceName f.namespaceName

/-- Witness for C8 at the default flags: the common name is
`iam-for-pods.eks.svc`. -/
theorem csr_common_name_witness :
    (mainCSR defaultFlags).commonName =
      "iam-for-pods" ++ "." ++ "eks" ++ ".svc" :=
  csr_common_name defaultFlags allOkEnv (mainCSR defaultFlags) rfl (by decide)

/-- C9 (confirmed): with no command-line assignments, the parsed flags hold
the registered defaults: port 443, in-cluster mode on, certificate directory
`/etc/webhook/certs`, a 365-day self-signed certificate lifetime, and
webhook config path `/etc/webhook/config.yaml`. -/
theorem default_flag_values :
    (parseFlags []).port = 443 ∧
    (parseFlags []).inCluster = true ∧
    (parseFlags []).certDirectory = "/etc/webhook/certs" ∧
    (parseFlags []).selfSignedLife = 365 * 24 * timeHour ∧
    (parseFlags []).webhookConfig = "/etc/webhook/config.yaml" :=
  ⟨rfl, rfl, rfl, by decide, rfl⟩

/-- C10 (confirmed): whatever the flags (so no CLI flag can change it) and
whatever the environment, the timeout `main` passes to the shutdown
coordinator is the hard-coded `time.Duration(10)*time.Second`. -/
theorem drain_deadline_ten_seconds (f : Flags) (env : MainEnv) (t : DurationNs)
    (h : MainStep.registerShutdown t ∈ mainSteps f env) :
    t = 10 * timeSecond := by
  rcases env with ⟨bc, cs, cm, up, gc, wf, le⟩
  cases hic : f.inCluster <;> cases bc <;> cases cs <;> cases cm <;> cases up <;>
    cases gc <;> cases wf <;> cases le <;>
    simp_all [mainSteps, tlsSetupSteps, serverSteps]

/-- Witness for C10 at the default run, whose registration step carries the
10-second deadline. -/
theorem drain_deadline_ten_seconds_witness :
    (10 * timeSecond : DurationNs) = 10 * timeSecond :=
  drain_deadline_ten_seconds defaultFlags allOkEnv (10 * timeSecond) (by decide)

end PodIdentityWebhook
